import Mathlib

/-!
Verification of the smartsheet-bind sync core against its natural-language
specification.  The definitions below are a shallow embedding of the Python
sources:

* `src/bind_client.py`   — `BindClient._request` (retry/backoff loop) and
  `BindClient._paginated_get` (OData pagination loop);
* `src/business_logic.py` — `sync_invoices_from_bind` (invoice UPSERT run:
  fetch, reconcile against the UUID key index, batched apply, report);
* `src/sync_bind_catalogs.py` — `BindCatalogSync.sync_catalog` (catalog
  UPSERT run).

Network and clock effects are made explicit: an oracle function supplies the
outcome of each physical HTTP attempt, and sleeps are recorded in a trace.
-/

deriving instance DecidableEq for Except

namespace BindSync

/-! ## The resilient HTTP client: `BindClient._request`

One physical HTTP attempt either yields a response (status code, optional
integer `Retry-After` header, an opaque body identifier) or fails at the
network level with a timeout or a connection error (the two `except` arms of
the source).  The oracle maps the attempt counter to its outcome. -/

inductive Attempt where
  | response (status : Nat) (retryAfter : Option Nat) (body : Nat)
  | timeout
  | connError
deriving DecidableEq, Repr

/-- Terminal errors of `_request`: every arm raises `BindAPIError`; the
variants record which `raise` site produced it (rate-limit exhaustion at
bind_client.py:137, the fall-through raise at :164 carrying the response
status, timeout exhaustion at :176, connection exhaustion at :184). -/
inductive ReqError where
  | rateLimit
  | httpError (status : Nat)
  | timeoutExhausted
  | connExhausted
deriving DecidableEq, Repr

/-- Observable trace of one `_request` call: its outcome, the sequence of
`time.sleep` durations it performed (in seconds, in order), and the number of
physical HTTP attempts it issued. -/
structure ReqTrace where
  result : Except ReqError Nat
  sleeps : List ℚ
  attempts : Nat
deriving DecidableEq, Repr

/-- Status codes the source treats as success (bind_client.py:118). -/
def successStatus (s : Nat) : Bool :=
  s = 200 || s = 201 || s = 204

/-- The 429 wait choice `wait_time = int(retry_after) if retry_after else
backoff` (bind_client.py:126). -/
def retryWait (ra : Option Nat) (backoff : ℚ) : ℚ :=
  match ra with
  | some n => (n : ℚ)
  | none => backoff

/-- The retry loop of `BindClient._request` (bind_client.py:105-186).

The Python loop runs `for attempt in range(max_retries + 1)`; here `attempt`
is the loop counter and `remaining = max_retries - attempt` counts the
iterations still allowed after the current one, so the source's guard
`attempt < self.max_retries` is exactly `remaining > 0`.  `backoff` is the
loop-local backoff variable; it doubles after every transient retry
(bind_client.py:134,151,174,182).  A 429 with a `Retry-After` header sleeps
the header value instead of the backoff (bind_client.py:125-133); a 5xx with
no attempts remaining falls through to the client-error raise carrying the
response status (bind_client.py:143-168). -/
def requestGo (oracle : Nat → Attempt) (attempt remaining : Nat) (backoff : ℚ) :
    ReqTrace :=
  match oracle attempt with
  | .response status ra body =>
    if successStatus status then
      { result := .ok body, sleeps := [], attempts := 1 }
    else if status = 429 then
      match remaining with
      | 0 => { result := .error .rateLimit, sleeps := [], attempts := 1 }
      | r + 1 =>
        let t := requestGo oracle (attempt + 1) r (backoff * 2)
        { result := t.result, sleeps := retryWait ra backoff :: t.sleeps,
          attempts := t.attempts + 1 }
    else if 500 ≤ status then
      match remaining with
      | 0 => { result := .error (.httpError status), sleeps := [], attempts := 1 }
      | r + 1 =>
        let t := requestGo oracle (attempt + 1) r (backoff * 2)
        { result := t.result, sleeps := backoff :: t.sleeps, attempts := t.attempts + 1 }
    else
      { result := .error (.httpError status), sleeps := [], attempts := 1 }
  | .timeout =>
    match remaining with
    | 0 => { result := .error .timeoutExhausted, sleeps := [], attempts := 1 }
    | r + 1 =>
      let t := requestGo oracle (attempt + 1) r (backoff * 2)
      { result := t.result, sleeps := backoff :: t.sleeps, attempts := t.attempts + 1 }
  | .connError =>
    match remaining with
    | 0 => { result := .error .connExhausted, sleeps := [], attempts := 1 }
    | r + 1 =>
      let t := requestGo oracle (attempt + 1) r (backoff * 2)
      { result := t.result, sleeps := backoff :: t.sleeps, attempts := t.attempts + 1 }

/-- Per-client configuration read by `_request`: `self.max_retries` and
`self.initial_backoff` (bind_client.py:75-76).  These are the only client
fields the retry loop reads, and it writes none of them. -/
structure ClientState where
  maxRetries : Nat
  initialBackoff : ℚ
deriving DecidableEq, Repr

/-- One call of `BindClient._request`: the local `backoff` variable is
initialised from `self.initial_backoff` at the top of the call
(bind_client.py:103) and the loop starts at `attempt = 0`. -/
def request (st : ClientState) (oracle : Nat → Attempt) : ReqTrace :=
  requestGo oracle 0 st.maxRetries st.initialBackoff

/-- A `_request` call together with the client state it leaves behind:
`_request` assigns no field of `self`, so the state after the call is the
state before it. -/
def requestStep (st : ClientState) (oracle : Nat → Attempt) :
    ReqTrace × ClientState :=
  (request st oracle, st)

/-- An attempt outcome the source classifies as transient (retried with
backoff): status 429, status ≥ 500, a timeout, or a connection error. -/
def transient : Attempt → Bool
  | .response status _ _ => status = 429 || 500 ≤ status
  | .timeout => true
  | .connError => true

/-- A transient outcome whose sleep is the current computed backoff, i.e.
every transient outcome except a 429 carrying a `Retry-After` header. -/
def backoffTransient : Attempt → Bool
  | .response status ra _ => (status = 429 && ra = none) || 500 ≤ status
  | .timeout => true
  | .connError => true

/-- The body returned when the attempt is a success response, else `none`. -/
def successBody : Attempt → Option Nat
  | .response status _ body => if successStatus status then some body else none
  | _ => none

/-! ## JSON-ish scalar values and records

A source record is a Python dict from field name to scalar; the scalars the
sync touches are strings, ints, floats, booleans and `None`.  Floats are
modelled as rationals (the sync performs no float arithmetic, it only passes
values through or renders them with `str`). -/

inductive Value where
  | null
  | str (s : String)
  | int (n : Int)
  | float (q : ℚ)
  | bool (b : Bool)
deriving DecidableEq, Repr

/-- A record: an ordered field-name → value mapping (a Python dict). -/
abbrev Rec := List (String × Value)

/-- Association-list lookup, the model of Python dict access `d[k]` /
`d.get(k)`: first binding wins (our dicts carry no duplicate keys). -/
def lookup {α : Type} (m : List (String × α)) (k : String) : Option α :=
  (m.find? (fun p => p.1 = k)).map (fun p => p.2)

/-- Python `d.get(k, default)`. -/
def Rec.getD (r : Rec) (k : String) (d : Value) : Value :=
  (lookup r k).getD d

/-- Python truthiness of a scalar (`bool(v)`): `None`, `""`, `0`, `0.0` and
`False` are falsy. -/
def Value.truthy : Value → Bool
  | .null => false
  | .str s => !s.isEmpty
  | .int n => n ≠ 0
  | .float q => q ≠ 0
  | .bool b => b

/-- Python `str(v)`.  Integers, strings and booleans render exactly as in
Python; `None` renders as `"None"`.  Non-integral floats are rendered from
the rational representation, an approximation of Python's float repr — no
claim below depends on the rendering of a non-integral float. -/
def Value.pyStr : Value → String
  | .null => "None"
  | .str s => s
  | .int n => toString n
  | .float q => if q.den = 1 then toString q.num ++ ".0"
      else toString q.num ++ "/" ++ toString q.den
  | .bool b => if b then "True" else "False"

/-- Whether a scalar is of a numeric type (Python `int` or `float`,
booleans excluded as in the cell-conversion dispatch of the sources). -/
def Value.isNumeric : Value → Bool
  | .int _ => true
  | .float _ => true
  | _ => false

/-- Python `v == n` for an integer literal `n`: numeric cross-type equality,
with `bool` comparing as 0/1 (it is an `int` subclass); strings and `None`
never equal an integer. -/
def Value.eqInt : Value → Int → Bool
  | .int m, n => m = n
  | .float q, n => q = (n : ℚ)
  | .bool b, n => (if b then (1 : Int) else 0) = n
  | _, _ => false

/-! ## Pagination: `BindClient._paginated_get`

The server side is modelled as the full record list held by the endpoint; a
page request at offset `skip` with page size `top` returns the slice
`src[skip : skip + top]` as a bare array (one of the response shapes the
source normalizes; for a bare array the `nextLink` membership test at
bind_client.py:238-240 can never break out of the loop, because its inner
condition `len(records) < page_size` was already checked at :234). -/

/-- The records a page request returns: `src[skip : skip + top]`. -/
def pageSlice {α : Type} (src : List α) (skip top : Nat) : List α :=
  (src.drop skip).take top

/-- Python truthiness of `max_records` combined with the bound check at
bind_client.py:229: `max_records and len(all_records) >= max_records`. -/
def maxReached (maxRecords : Option Nat) (len : Nat) : Bool :=
  match maxRecords with
  | none => false
  | some m => decide (m ≠ 0) && decide (m ≤ len)

/-- The `while True` pagination loop of `_paginated_get`
(bind_client.py:211-243), with explicit fuel (the loop has no bound of its
own; every theorem below supplies enough fuel and shows it is never
exhausted).  Returns the accumulated records and the number of page requests
issued.  Mirrors, in order: the zero-record break (:223-224), the
`max_records` truncation break (:229-231), the short-page break (:234-235),
and the offset advance (:242). -/
def paginatedGo {α : Type} (src : List α) (pageSize : Nat)
    (maxRecords : Option Nat) :
    Nat → Nat → List α → Nat → Option (List α × Nat)
  | 0, _, _, _ => none
  | fuel + 1, skip, acc, reqs =>
    let records := pageSlice src skip pageSize
    if records.isEmpty then
      some (acc, reqs + 1)
    else
      let acc := acc ++ records
      if maxReached maxRecords acc.length then
        some (acc.take ((maxRecords.getD 0)), reqs + 1)
      else if records.length < pageSize then
        some (acc, reqs + 1)
      else
        paginatedGo src pageSize maxRecords fuel (skip + pageSize) acc (reqs + 1)

/-- `BindClient._paginated_get` over a source of `src.length` records:
`skip` starts at 0 with an empty accumulator.  `src.length + 1` units of fuel
are provably sufficient for any positive page size. -/
def paginatedGet {α : Type} (src : List α) (pageSize : Nat)
    (maxRecords : Option Nat) : Option (List α × Nat) :=
  paginatedGo src pageSize maxRecords (src.length + 1) 0 [] 0

/-! ## String helpers used by the invoice field mapping -/

/-- Python `s.strip()` (leading/trailing whitespace removal). -/
def pyStrip (s : String) : String :=
  s.trim

/-- Python `s.rstrip("- ")`: drop trailing dashes and spaces
(business_logic.py:832). -/
def pyRstripDashSpace (s : String) : String :=
  String.mk ((s.toList.reverse.dropWhile (fun c => c == '-' || c == ' ')).reverse)

/-- Python substring test `pat in s`. -/
def containsSub (s pat : String) : Bool :=
  1 < (s.splitOn pat).length

/-! ## Invoice reconciliation: `sync_invoices_from_bind`

`business_logic.py:717-950`.  The pieces the run needs from the outside world
(the Bind fetch outcome, the per-invoice detail fetch, the Smartsheet key
index and column map, the outcome of each batched write, the formatted
timestamps) are collected in an environment record; the run itself is a pure
function of that environment. -/

/-- `get_invoice_status` (business_logic.py:618-633). -/
def getInvoiceStatus (inv : Rec) : String :=
  let status := inv.getD "Status" (.int 0)
  let hasUuid := (inv.getD "UUID" .null).truthy
  if status.eqInt 2 then "Cancelada"
  else if status.eqInt 1 then "Pagada"
  else if status.eqInt 0 then
    if hasUuid then "Vigente" else "Borrador"
  else "Desconocido"

/-- One Smartsheet cell: a column id and the value written to it. -/
structure Cell where
  columnId : Nat
  value : Value
deriving DecidableEq, Repr

/-- The cell-value conversion of the invoice sync
(business_logic.py:892): `str(value) if value is not None else ""` — every
non-null value, of any type, is coerced to its string rendering. -/
def invoiceCellValue (v : Value) : Value :=
  .str (if v = .null then "" else v.pyStr)

/-- Build the cell list from the field mapping (business_logic.py:887-893):
field names absent from the sheet's column map are silently skipped. -/
def mkInvoiceCells (colMap : List (String × Nat)) (fm : List (String × Value)) :
    List Cell :=
  fm.filterMap (fun p => (lookup colMap p.1).map
    (fun cid => { columnId := cid, value := invoiceCellValue p.2 }))

/-- A row write queued by reconciliation: an insert (with its placement flag)
or an update addressed to an existing row id. -/
inductive Op where
  | insert (toTop : Bool) (cells : List Cell)
  | update (rowId : Nat) (cells : List Cell)
deriving DecidableEq, Repr

/-- The placeholder product used when an invoice has no product lines
(business_logic.py:838). -/
def dummyProduct : Rec :=
  [("Code", .str ""), ("Name", .str ""), ("Qty", .int 0),
   ("Price", .int 0), ("ID", .str "no-product")]

/-- Per-run reconciliation context: the detail fetch
`bind_client.get_invoice(...)["Products"]` (an `Except` because the source
wraps it in try/except and falls back to no products), the date formatter
(the timezone-dependent `datetime` block at business_logic.py:812-824,
which has no shallow embedding and is therefore a parameter every theorem
quantifies over), the `now` timestamp string, the UUID → row-id key index
from `get_existing_invoices_map`, and the column-title → column-id map. -/
structure ReconCtx where
  fetchProducts : Rec → Except String (List Rec)
  formatFecha : String → String
  nowStr : String
  existingMap : List (String × Nat)
  columnMap : List (String × Nat)

/-- The product list an invoice is expanded over: the fetched detail products
with the try/except fallback to `[]`, then the placeholder substitution
(business_logic.py:803-808 and 836-838). -/
def effectiveProducts (fetch : Rec → Except String (List Rec)) (inv : Rec) :
    List Rec :=
  let ps := match fetch inv with
    | .ok ps => ps
    | .error _ => []
  if ps.isEmpty then [dummyProduct] else ps

/-- The invoice's business key source: `inv.get("UUID", "")`
(business_logic.py:797). -/
def invoiceUuid (inv : Rec) : Value :=
  inv.getD "UUID" (.str "")

/-- The synthetic per-product row key (business_logic.py:843):
`f"{uuid}-{idx}" if len(products) > 1 else uuid`. -/
def rowKey (uuid : String) (numProducts idx : Nat) : String :=
  if 1 < numProducts then uuid ++ "-" ++ toString idx else uuid

/-- The keys of the rows an invoice expands to, in product order. -/
def invoiceRowKeys (fetch : Rec → Except String (List Rec)) (inv : Rec) :
    List String :=
  let ps := effectiveProducts fetch inv
  (List.range ps.length).map (rowKey (invoiceUuid inv).pyStr ps.length)

/-- The `field_mapping` dict literal of the invoice sync
(business_logic.py:845-884), including the computed values that precede it
(business_logic.py:810-834).  `formatFecha` stands for the datetime block:
it is applied exactly when `inv.get("Date", "")` is truthy, otherwise the
date cells carry `None` (business_logic.py:811-826). -/
def invoiceFieldMapping (formatFecha : String → String) (nowStr : String)
    (inv product : Rec) (key : String) : List (String × Value) :=
  let uuid := invoiceUuid inv
  let fechaBind := inv.getD "Date" (.str "")
  let fechaStr : Value :=
    if fechaBind.truthy then .str (formatFecha fechaBind.pyStr) else .null
  let estatus := getInvoiceStatus inv
  let moneda := if containsSub (inv.getD "CurrencyID" (.str "")).pyStr "b7e2c065"
    then "MXN" else "USD"
  let metodoPago := if (inv.getD "IsFiscalInvoice" .null).truthy
    then "PUE" else "PPD"
  let serie := pyRstripDashSpace (pyStrip (inv.getD "Serie" (.str "")).pyStr)
  let folio := (inv.getD "Number" (.str "")).pyStr
  let numeroFactura := if !serie.isEmpty then serie ++ "-" ++ folio else folio
  let pendiente :=
    if (inv.getD "Balance" .null).truthy then inv.getD "Balance" (.int 0)
    else if estatus = "Vigente" then inv.getD "Total" (.int 0)
    else .int 0
  [("Nueva", .str key),
   ("Serie", .str serie),
   ("No.", .str numeroFactura),
   ("Emision", fechaStr),
   ("Cliente", inv.getD "ClientName" (.str "")),
   ("RFC Cliente", inv.getD "RFC" (.str "")),
   ("Subtotal", inv.getD "Subtotal" (.int 0)),
   ("I.V.A", inv.getD "VAT" (.int 0)),
   ("Total", inv.getD "Total" (.int 0)),
   ("Moneda", .str moneda),
   ("Folio Fiscal", uuid),
   ("Estatus", .str estatus),
   ("Vendedor", inv.getD "SellerName" (.str "")),
   ("OrdenDeCompra", inv.getD "PurchaseOrder" (.str "")),
   ("Vencimiento", .null),
   ("Pendiente", pendiente),
   ("Pagos", inv.getD "PaidAmount" (.int 0)),
   ("Folio", .str folio),
   ("Fecha", fechaStr),
   ("RFC", inv.getD "RFC" (.str "")),
   ("IVA", inv.getD "VAT" (.int 0)),
   ("Metodo Pago", .str metodoPago),
   ("Orden Compra", inv.getD "PurchaseOrder" (.str "")),
   ("Bind ID", inv.getD "ID" (.str "")),
   ("Ultima Sync", .str nowStr),
   ("Pagada", .bool (estatus = "Pagada")),
   ("Cancelada", .bool (estatus = "Cancelada")),
   ("Código Prod/Serv", product.getD "Code" (.str "")),
   ("Producto/Concepto", product.getD "Name" (.str "")),
   ("Cantidad", product.getD "Qty" (.int 0)),
   ("Cantidad Total", product.getD "Qty" (.int 0))]

/-- The insert/update decision for one expanded per-product row
(business_logic.py:841-906): a key present in the index becomes an update
addressed to the stored row id; an absent key becomes a top-placed insert. -/
def invoiceOpForProduct (ctx : ReconCtx) (inv : Rec) (numProducts idx : Nat)
    (product : Rec) : Op :=
  match lookup ctx.existingMap (rowKey (invoiceUuid inv).pyStr numProducts idx) with
  | some rid => .update rid (mkInvoiceCells ctx.columnMap
      (invoiceFieldMapping ctx.formatFecha ctx.nowStr inv product
        (rowKey (invoiceUuid inv).pyStr numProducts idx)))
  | none => .insert true (mkInvoiceCells ctx.columnMap
      (invoiceFieldMapping ctx.formatFecha ctx.nowStr inv product
        (rowKey (invoiceUuid inv).pyStr numProducts idx)))

/-- Processing of one fetched invoice (the body of the loop at
business_logic.py:796-906): an invoice whose UUID is falsy is skipped with a
warning and queues no row; otherwise one operation per (effective) product. -/
def processInvoice (ctx : ReconCtx) (inv : Rec) : List Op × List String :=
  let uuid := invoiceUuid inv
  if !uuid.truthy then
    ([], ["Factura sin UUID ignorada: " ++ (inv.getD "Number" .null).pyStr])
  else
    let ps := effectiveProducts ctx.fetchProducts inv
    (ps.enum.map (fun p => invoiceOpForProduct ctx inv ps.length p.1 p.2), [])

/-- Reconciliation of the whole fetched invoice list, in order. -/
def reconcileInvoices (ctx : ReconCtx) (invoices : List Rec) :
    List Op × List String :=
  invoices.foldl
    (fun acc inv =>
      let r := processInvoice ctx inv
      (acc.1 ++ r.1, acc.2 ++ r.2))
    ([], [])

/-- The `rows_to_update` list: updates in queue order (business_logic.py:900). -/
def opsUpdates (ops : List Op) : List (Nat × List Cell) :=
  ops.filterMap (fun o => match o with
    | .update rid cells => some (rid, cells)
    | _ => none)

/-- The `rows_to_add` list: inserts in queue order (business_logic.py:906). -/
def opsInserts (ops : List Op) : List (List Cell) :=
  ops.filterMap (fun o => match o with
    | .insert _ cells => some cells
    | _ => none)

/-! ## Batched application -/

/-- Chunking helper with fuel (the list length always suffices). -/
def chunksGo {α : Type} (n : Nat) : Nat → List α → List (List α)
  | 0, _ => []
  | _, [] => []
  | fuel + 1, l => l.take n :: chunksGo n fuel (l.drop n)

/-- The chunking of `for i in range(0, len(rows), n): batch = rows[i:i+n]`:
consecutive slices of at most `n` elements. -/
def chunks {α : Type} (n : Nat) (l : List α) : List (List α) :=
  chunksGo n l.length l

/-- Outcome of a batched write phase: the accumulated success counter, the
error strings appended, and the number of API calls issued. -/
structure BatchOut where
  count : Nat
  errors : List String
  calls : Nat
deriving DecidableEq, Repr

/-- The fault-tolerant batch loops of `sync_invoices_from_bind`
(business_logic.py:913-931): each chunk is one API call whose outcome the
environment supplies by call index; a success adds the chunk length to the
counter, a failure appends one tagged error string, and iteration continues
with the next chunk either way. -/
def applyBatchesTolerant {α : Type} (outcome : Nat → Except String Unit)
    (tag : String) (batches : List (List α)) : BatchOut :=
  batches.enum.foldl
    (fun acc p =>
      match outcome p.1 with
      | .ok _ =>
        { acc with count := acc.count + p.2.length, calls := acc.calls + 1 }
      | .error e =>
        { acc with errors := acc.errors ++ [tag ++ e], calls := acc.calls + 1 })
    { count := 0, errors := [], calls := 0 }

/-! ## The invoice sync run -/

/-- An exception reaching the outer try of `sync_invoices_from_bind`:
a `TypeError` from call dispatch, a `BindAPIError`, or any other exception. -/
inductive PyErr where
  | typeError (msg : String)
  | bindAPIError (msg : String)
  | other (msg : String)
deriving DecidableEq, Repr

/-- The error string the outer except arms append
(business_logic.py:942-948): `BindAPIError` is caught first with the
`"Error Bind: "` prefix, everything else with `"Error: "`. -/
def pyErrMsg : PyErr → String
  | .bindAPIError m => "Error Bind: " ++ m
  | .typeError m => "Error: " ++ m
  | .other m => "Error: " ++ m

/-- Python call dispatch for a call made with keyword arguments: a keyword
not among the callee's parameter names raises `TypeError` before the callee
body runs; otherwise the body's outcome is returned. -/
def callWithKwargs {α : Type} (fname : String) (accepted kwargs : List String)
    (body : Except PyErr α) : Except PyErr α :=
  match kwargs.find? (fun k => !accepted.contains k) with
  | some k =>
    .error (.typeError (fname ++ "() got an unexpected keyword argument " ++ k))
  | none => body

/-- Keyword parameters accepted by `BindClient.get_invoices`
(bind_client.py:328): only `created_since`. -/
def getInvoicesParams : List String :=
  ["created_since"]

/-- Keyword arguments `sync_invoices_from_bind` passes to
`bind_client.get_invoices` (business_logic.py:769-773). -/
def syncGetInvoicesKwargs : List String :=
  ["created_since", "limit", "order_by"]

/-- The result dict of `sync_invoices_from_bind` (business_logic.py:750-761),
restricted to the fields with behavioral content (`timezone`, `lookback`
and `since` are constant strings of the run).  `unchanged` is an integer:
the source computes `len(invoices) - inserted - updated`, which can be
negative when invoices expand to several rows. -/
structure SyncResult where
  success : Bool
  timestamp : String
  totalInBind : Nat
  inserted : Nat
  updated : Nat
  unchanged : Int
  errors : List String
  message : Option String
deriving DecidableEq, Repr

/-- The environment of one invoice sync run: the outcome a correctly invoked
`get_invoices` body would produce, the per-invoice detail fetch, the
Smartsheet key index and column map, the outcome of each batched
`update_rows` / `add_rows` call (by call index), the date formatter, the
formatted timestamps, and the lookback parameter. -/
structure SyncEnv where
  bindGetInvoices : Except PyErr (List Rec)
  fetchProducts : Rec → Except String (List Rec)
  existingMap : List (String × Nat)
  columnMap : List (String × Nat)
  updateRowsOutcome : Nat → Except String Unit
  addRowsOutcome : Nat → Except String Unit
  formatFecha : String → String
  nowStr : String
  nowIso : String
  minutesLookback : Nat

/-- The reconciliation context the run builds from its environment. -/
def SyncEnv.reconCtx (env : SyncEnv) : ReconCtx :=
  { fetchProducts := env.fetchProducts,
    formatFecha := env.formatFecha,
    nowStr := env.nowStr,
    existingMap := env.existingMap,
    columnMap := env.columnMap }

/-- The result dict as initialised at business_logic.py:750-761. -/
def initialResult (env : SyncEnv) : SyncResult :=
  { success := false, timestamp := env.nowIso, totalInBind := 0,
    inserted := 0, updated := 0, unchanged := 0, errors := [],
    message := none }

/-- The body of `sync_invoices_from_bind` downstream of the fetch call
(business_logic.py:763-950), as a function of the fetch outcome.  A fetch
exception lands in the outer except arms, which append one error string to
the otherwise untouched initial result.  An empty fetch returns early with
success and a message.  Otherwise the invoices are reconciled and the
updates, then the inserts, are applied in tolerant batches of 100. -/
def syncInvoicesCore (env : SyncEnv) (fetchResult : Except PyErr (List Rec)) :
    SyncResult :=
  match fetchResult with
  | .error e => { initialResult env with errors := [pyErrMsg e] }
  | .ok invoices =>
    let res := { initialResult env with totalInBind := invoices.length }
    if invoices.isEmpty then
      { res with
        success := true
        message := some ("No hay facturas nuevas en los últimos "
          ++ toString env.minutesLookback ++ " minutos") }
    else
      let ops := (reconcileInvoices env.reconCtx invoices).1
      let upd := applyBatchesTolerant env.updateRowsOutcome "Error update: "
        (chunks 100 (opsUpdates ops))
      let add := applyBatchesTolerant env.addRowsOutcome "Error insert: "
        (chunks 100 (opsInserts ops))
      { res with
        success := true
        updated := upd.count
        inserted := add.count
        errors := upd.errors ++ add.errors
        unchanged := (invoices.length : Int) - (add.count : Int)
          - (upd.count : Int) }

/-- `sync_invoices_from_bind`: the fetch is the call
`bind_client.get_invoices(created_since=..., limit=100, order_by="Date desc")`
at business_logic.py:769-773, dispatched against the parameter list of
`BindClient.get_invoices`. -/
def syncInvoicesFromBind (env : SyncEnv) : SyncResult :=
  syncInvoicesCore env
    (callWithKwargs "get_invoices" getInvoicesParams syncGetInvoicesKwargs
      env.bindGetInvoices)

/-! ## Catalog sync: `BindCatalogSync.sync_catalog`

`sync_bind_catalogs.py:442-558`.  The per-record loop mirrors the invoice
reconciliation but with a different cell-value conversion, and the batch
loops at :529-539 have no per-batch try/except: an API exception propagates
to the outer handler, which returns a failure dict without counts. -/

/-- Association-list lookup keyed by scalar values, the model of the
`existing_rows` dict whose keys are raw primary-key cell values. -/
def lookupV {α : Type} (m : List (Value × α)) (k : Value) : Option α :=
  (m.find? (fun p => p.1 = k)).map (fun p => p.2)

/-- Python `str(value)[:4000]` (sync_bind_catalogs.py:505). -/
def pyTruncate4000 (s : String) : String :=
  String.mk (s.toList.take 4000)

/-- The cell-value conversion of the catalog sync
(sync_bind_catalogs.py:497-505): `None` becomes `""`, booleans and numbers
pass through unchanged (the bool test precedes the int/float test, as in the
source, because Python `bool` is an `int` subclass), anything else is
stringified and truncated to 4000 characters. -/
def catalogCellValue (v : Value) : Value :=
  match v with
  | .null => .str ""
  | .bool b => .bool b
  | .int n => .int n
  | .float q => .float q
  | v => .str (pyTruncate4000 v.pyStr)

/-- The parts of a `CATALOG_CONFIGS` entry the record loop reads. -/
structure CatalogConfig where
  fieldMapping : List (String × String)
  primaryKey : String

/-- The record's primary-key value (sync_bind_catalogs.py:489):
`str(record.get(config["field_mapping"][config["primary_key"]], ""))`.
Every entry of `CATALOG_CONFIGS` maps its primary key, so the inner lookup
is total on real configs; the default `""` covers the hypothetical miss. -/
def catalogPkValue (cfg : CatalogConfig) (record : Rec) : String :=
  (record.getD ((lookup cfg.fieldMapping cfg.primaryKey).getD "") (.str "")).pyStr

/-- The cell list for one catalog record (sync_bind_catalogs.py:494-510):
mapped columns present in the sheet, then the timestamp cell when the sheet
has the `Última Actualización` column. -/
def catalogCells (cfg : CatalogConfig) (colMap : List (String × Nat))
    (timestamp : String) (record : Rec) : List Cell :=
  (cfg.fieldMapping.filterMap (fun p => (lookup colMap p.1).map
    (fun cid => { columnId := cid,
                  value := catalogCellValue (record.getD p.2 .null) })))
  ++ (match lookup colMap "Última Actualización" with
    | some cid => [{ columnId := cid, value := .str timestamp }]
    | none => [])

/-- The per-record UPSERT decision of the catalog sync
(sync_bind_catalogs.py:488-523): a record whose primary-key string is empty
is skipped (`continue`, with no warning recorded); a key present in the
`existing_rows` index becomes an update addressed to the stored row id; an
absent key becomes a bottom-placed insert. -/
def catalogProcessRecord (cfg : CatalogConfig) (colMap : List (String × Nat))
    (existing : List (Value × Nat)) (timestamp : String) (record : Rec) :
    Option Op :=
  let pk := catalogPkValue cfg record
  if pk.isEmpty then none
  else
    let cells := catalogCells cfg colMap timestamp record
    match lookupV existing (.str pk) with
    | some rid => some (.update rid cells)
    | none => some (.insert false cells)

/-- The per-record processing of the catalog sync together with the warnings
it logs.  The record loop of `sync_catalog` (sync_bind_catalogs.py:488-523)
contains no logging statement at all: in particular the empty-key skip at
:490-491 is a bare `continue`, so the warning list of a catalog record is
always empty — in contrast with the invoice loop, whose empty-key skip logs
`"Factura sin UUID ignorada"` (business_logic.py:798-800). -/
def catalogProcessRecordLogged (cfg : CatalogConfig)
    (colMap : List (String × Nat)) (existing : List (Value × Nat))
    (timestamp : String) (record : Rec) : Option Op × List String :=
  (catalogProcessRecord cfg colMap existing timestamp record, [])

/-- One intolerant batch loop of the catalog sync
(sync_bind_catalogs.py:529-539): each chunk is one API call; the first
failing call raises out of the loop, so the accumulated counter is lost and
the remaining chunks are never attempted.  Returns the outcome (the counter
on success) and the number of API calls issued. -/
def catalogBatchGo {α : Type} (outcome : Nat → Except String Unit) :
    Nat → Nat → List (List α) → Except String Nat × Nat
  | _, added, [] => (.ok added, 0)
  | call, added, b :: rest =>
    match outcome call with
    | .error e => (.error e, 1)
    | .ok _ =>
      let r := catalogBatchGo outcome (call + 1) (added + b.length) rest
      (r.1, r.2 + 1)

/-- The failure dict `{"success": False, "catalog": ..., "error": str(e)}`
(sync_bind_catalogs.py:558) and the success dict (:544-554), restricted to
the behavioral fields: the failure dict carries no `inserted`/`updated`
keys at all. -/
structure CatalogReport where
  success : Bool
  inserted : Option Nat
  updated : Option Nat
  error : Option String
deriving DecidableEq, Repr

/-- The apply phase of `sync_catalog` (sync_bind_catalogs.py:525-558): the
insert chunks, then the update chunks, each in intolerant batches of 100;
the first exception short-circuits to the failure dict.  Returns the report
and the total number of row-write API calls issued. -/
def catalogApplyPhase (addOutcome updOutcome : Nat → Except String Unit)
    (rowsToAdd : List (List Cell)) (rowsToUpdate : List (Nat × List Cell)) :
    CatalogReport × Nat :=
  let addRun := catalogBatchGo addOutcome 0 0 (chunks 100 rowsToAdd)
  match addRun.1 with
  | .error e =>
    ({ success := false, inserted := none, updated := none, error := some e },
      addRun.2)
  | .ok added =>
    let updRun := catalogBatchGo updOutcome 0 0 (chunks 100 rowsToUpdate)
    match updRun.1 with
    | .error e =>
      ({ success := false, inserted := none, updated := none, error := some e },
        addRun.2 + updRun.2)
    | .ok updated =>
      ({ success := true, inserted := some added, updated := some updated,
         error := none }, addRun.2 + updRun.2)

/-! ## Theorems -/

/-! ### Step lemmas for the retry loop -/

/-- One loop iteration observing a success response returns it at once. -/
theorem requestGo_success (oracle : Nat → Attempt) (attempt remaining : Nat)
    (backoff : ℚ) (s : Nat) (ra : Option Nat) (body : Nat)
    (hs : successStatus s = true)
    (ho : oracle attempt = .response s ra body) :
    requestGo oracle attempt remaining backoff =
      { result := .ok body, sleeps := [], attempts := 1 } := by
  cases remaining <;> simp [requestGo, ho, hs]

/-- One loop iteration observing a 429 with retries remaining sleeps the
retry wait and continues with doubled backoff. -/
theorem requestGo_429_retry (oracle : Nat → Attempt) (attempt r : Nat)
    (backoff : ℚ) (ra : Option Nat) (body : Nat)
    (ho : oracle attempt = .response 429 ra body) :
    requestGo oracle attempt (r + 1) backoff =
      { result := (requestGo oracle (attempt + 1) r (backoff * 2)).result
        sleeps := retryWait ra backoff
          :: (requestGo oracle (attempt + 1) r (backoff * 2)).sleeps
        attempts := (requestGo oracle (attempt + 1) r (backoff * 2)).attempts + 1 } := by
  simp [requestGo, ho, successStatus]

/-- One loop iteration observing a 429 with no retries remaining raises the
rate-limit error. -/
theorem requestGo_429_stop (oracle : Nat → Attempt) (attempt : Nat)
    (backoff : ℚ) (ra : Option Nat) (body : Nat)
    (ho : oracle attempt = .response 429 ra body) :
    requestGo oracle attempt 0 backoff =
      { result := .error .rateLimit, sleeps := [], attempts := 1 } := by
  simp [requestGo, ho, successStatus]

/-- One loop iteration observing a 5xx with retries remaining sleeps the
backoff and continues with doubled backoff. -/
theorem requestGo_5xx_retry (oracle : Nat → Attempt) (attempt r : Nat)
    (backoff : ℚ) (s : Nat) (ra : Option Nat) (body : Nat)
    (hs : 500 ≤ s)
    (ho : oracle attempt = .response s ra body) :
    requestGo oracle attempt (r + 1) backoff =
      { result := (requestGo oracle (attempt + 1) r (backoff * 2)).result
        sleeps := backoff :: (requestGo oracle (attempt + 1) r (backoff * 2)).sleeps
        attempts := (requestGo oracle (attempt + 1) r (backoff * 2)).attempts + 1 } := by
  have hns : successStatus s = false := by simp [successStatus]; omega
  have h429 : ¬ s = 429 := by omega
  simp [requestGo, ho, hns, h429, hs]

/-- One loop iteration observing a 5xx with no retries remaining falls
through to the raise carrying the response status. -/
theorem requestGo_5xx_stop (oracle : Nat → Attempt) (attempt : Nat)
    (backoff : ℚ) (s : Nat) (ra : Option Nat) (body : Nat)
    (hs : 500 ≤ s)
    (ho : oracle attempt = .response s ra body) :
    requestGo oracle attempt 0 backoff =
      { result := .error (.httpError s), sleeps := [], attempts := 1 } := by
  have hns : successStatus s = false := by simp [successStatus]; omega
  have h429 : ¬ s = 429 := by omega
  simp [requestGo, ho, hns, h429, hs]

/-- One loop iteration hitting a timeout with retries remaining sleeps the
backoff and continues with doubled backoff. -/
theorem requestGo_timeout_retry (oracle : Nat → Attempt) (attempt r : Nat)
    (backoff : ℚ) (ho : oracle attempt = .timeout) :
    requestGo oracle attempt (r + 1) backoff =
      { result := (requestGo oracle (attempt + 1) r (backoff * 2)).result
        sleeps := backoff :: (requestGo oracle (attempt + 1) r (backoff * 2)).sleeps
        attempts := (requestGo oracle (attempt + 1) r (backoff * 2)).attempts + 1 } := by
  simp [requestGo, ho]

/-- A timeout with no retries remaining raises the timeout error. -/
theorem requestGo_timeout_stop (oracle : Nat → Attempt) (attempt : Nat)
    (backoff : ℚ) (ho : oracle attempt = .timeout) :
    requestGo oracle attempt 0 backoff =
      { result := .error .timeoutExhausted, sleeps := [], attempts := 1 } := by
  simp [requestGo, ho]

/-- One loop iteration hitting a connection error with retries remaining
sleeps the backoff and continues with doubled backoff. -/
theorem requestGo_conn_retry (oracle : Nat → Attempt) (attempt r : Nat)
    (backoff : ℚ) (ho : oracle attempt = .connError) :
    requestGo oracle attempt (r + 1) backoff =
      { result := (requestGo oracle (attempt + 1) r (backoff * 2)).result
        sleeps := backoff :: (requestGo oracle (attempt + 1) r (backoff * 2)).sleeps
        attempts := (requestGo oracle (attempt + 1) r (backoff * 2)).attempts + 1 } := by
  simp [requestGo, ho]

/-- A connection error with no retries remaining raises the connection
error. -/
theorem requestGo_conn_stop (oracle : Nat → Attempt) (attempt : Nat)
    (backoff : ℚ) (ho : oracle attempt = .connError) :
    requestGo oracle attempt 0 backoff =
      { result := .error .connExhausted, sleeps := [], attempts := 1 } := by
  simp [requestGo, ho]

/-- After k transient outcomes (k within the retry budget) followed by a
success response, the loop returns that success and has issued exactly
k + 1 physical attempts. -/
theorem requestGo_ok_of_transients (oracle : Nat → Attempt) (b : Nat) :
    ∀ (k attempt remaining : Nat) (backoff : ℚ),
      (∀ j, j < k → transient (oracle (attempt + j)) = true) →
      successBody (oracle (attempt + k)) = some b →
      k ≤ remaining →
      (requestGo oracle attempt remaining backoff).result = .ok b ∧
      (requestGo oracle attempt remaining backoff).attempts = k + 1 := by
  intro k
  induction k with
  | zero =>
    intro attempt remaining backoff _ hsucc _
    rw [Nat.add_zero] at hsucc
    rcases ho : oracle attempt with ⟨s, ra, body⟩ | _ | _ <;> rw [ho] at hsucc
    · simp only [successBody] at hsucc
      by_cases hs : successStatus s = true
      · rw [if_pos hs] at hsucc
        have hb : body = b := Option.some.inj hsucc
        rw [requestGo_success oracle attempt remaining backoff s ra body hs ho]
        exact ⟨congrArg Except.ok hb, rfl⟩
      · rw [if_neg hs] at hsucc
        exact absurd hsucc (by simp)
    · simp [successBody] at hsucc
    · simp [successBody] at hsucc
  | succ k ih =>
    intro attempt remaining backoff htr hsucc hk
    obtain ⟨r, rfl⟩ : ∃ r, remaining = r + 1 := ⟨remaining - 1, by omega⟩
    have ht0 : transient (oracle attempt) = true := by
      have h0 := htr 0 (Nat.succ_pos k)
      rwa [Nat.add_zero] at h0
    have htr2 : ∀ j, j < k → transient (oracle (attempt + 1 + j)) = true := by
      intro j hj
      have hx := htr (j + 1) (by omega)
      rwa [show attempt + (j + 1) = attempt + 1 + j by omega] at hx
    have hsucc2 : successBody (oracle (attempt + 1 + k)) = some b := by
      rwa [show attempt + 1 + k = attempt + (k + 1) by omega]
    have hrec := ih (attempt + 1) r (backoff * 2) htr2 hsucc2 (by omega)
    rcases ho : oracle attempt with ⟨s, ra, body⟩ | _ | _
    · rw [ho] at ht0
      simp only [transient, Bool.or_eq_true, decide_eq_true_eq] at ht0
      by_cases h429 : s = 429
      · subst h429
        rw [requestGo_429_retry oracle attempt r backoff ra body ho]
        exact ⟨hrec.1, congrArg (fun x => x + 1) hrec.2⟩
      · have hs : 500 ≤ s := ht0.resolve_left h429
        rw [requestGo_5xx_retry oracle attempt r backoff s ra body hs ho]
        exact ⟨hrec.1, congrArg (fun x => x + 1) hrec.2⟩
    · rw [requestGo_timeout_retry oracle attempt r backoff ho]
      exact ⟨hrec.1, congrArg (fun x => x + 1) hrec.2⟩
    · rw [requestGo_conn_retry oracle attempt r backoff ho]
      exact ⟨hrec.1, congrArg (fun x => x + 1) hrec.2⟩

/-- When the attempt at every index of the remaining budget is transient,
the loop ends in a terminal error after exactly `remaining + 1` physical
attempts. -/
theorem requestGo_error_of_all_transient (oracle : Nat → Attempt) :
    ∀ (remaining attempt : Nat) (backoff : ℚ),
      (∀ j, j ≤ remaining → transient (oracle (attempt + j)) = true) →
      (∃ e, (requestGo oracle attempt remaining backoff).result = .error e) ∧
      (requestGo oracle attempt remaining backoff).attempts = remaining + 1 := by
  intro remaining
  induction remaining with
  | zero =>
    intro attempt backoff htr
    have ht0 : transient (oracle attempt) = true := by
      have h0 := htr 0 (Nat.le_refl 0)
      rwa [Nat.add_zero] at h0
    rcases ho : oracle attempt with ⟨s, ra, body⟩ | _ | _
    · rw [ho] at ht0
      simp only [transient, Bool.or_eq_true, decide_eq_true_eq] at ht0
      by_cases h429 : s = 429
      · subst h429
        rw [requestGo_429_stop oracle attempt backoff ra body ho]
        exact ⟨⟨.rateLimit, rfl⟩, rfl⟩
      · have hs : 500 ≤ s := ht0.resolve_left h429
        rw [requestGo_5xx_stop oracle attempt backoff s ra body hs ho]
        exact ⟨⟨.httpError s, rfl⟩, rfl⟩
    · rw [requestGo_timeout_stop oracle attempt backoff ho]
      exact ⟨⟨.timeoutExhausted, rfl⟩, rfl⟩
    · rw [requestGo_conn_stop oracle attempt backoff ho]
      exact ⟨⟨.connExhausted, rfl⟩, rfl⟩
  | succ r ih =>
    intro attempt backoff htr
    have ht0 : transient (oracle attempt) = true := by
      have h0 := htr 0 (Nat.zero_le _)
      rwa [Nat.add_zero] at h0
    have htr2 : ∀ j, j ≤ r → transient (oracle (attempt + 1 + j)) = true := by
      intro j hj
      have hx := htr (j + 1) (by omega)
      rwa [show attempt + (j + 1) = attempt + 1 + j by omega] at hx
    have hrec := ih (attempt + 1) (backoff * 2) htr2
    rcases hrec.1 with ⟨e, he⟩
    rcases ho : oracle attempt with ⟨s, ra, body⟩ | _ | _
    · rw [ho] at ht0
      simp only [transient, Bool.or_eq_true, decide_eq_true_eq] at ht0
      by_cases h429 : s = 429
      · subst h429
        rw [requestGo_429_retry oracle attempt r backoff ra body ho]
        exact ⟨⟨e, he⟩, congrArg (fun x => x + 1) hrec.2⟩
      · have hs : 500 ≤ s := ht0.resolve_left h429
        rw [requestGo_5xx_retry oracle attempt r backoff s ra body hs ho]
        exact ⟨⟨e, he⟩, congrArg (fun x => x + 1) hrec.2⟩
    · rw [requestGo_timeout_retry oracle attempt r backoff ho]
      exact ⟨⟨e, he⟩, congrArg (fun x => x + 1) hrec.2⟩
    · rw [requestGo_conn_retry oracle attempt r backoff ho]
      exact ⟨⟨e, he⟩, congrArg (fun x => x + 1) hrec.2⟩

/-- After k backoff-sleeping transient outcomes followed by a success, the
sleep trace is the geometric sequence backoff, 2·backoff, …, 2^(k-1)·backoff:
it starts at the incoming backoff value and strictly doubles each retry. -/
theorem requestGo_sleeps_doubling (oracle : Nat → Attempt) (b : Nat) :
    ∀ (k attempt remaining : Nat) (backoff : ℚ),
      (∀ j, j < k → backoffTransient (oracle (attempt + j)) = true) →
      successBody (oracle (attempt + k)) = some b →
      k ≤ remaining →
      (requestGo oracle attempt remaining backoff).sleeps =
        (List.range k).map (fun i => backoff * 2 ^ i) := by
  intro k
  induction k with
  | zero =>
    intro attempt remaining backoff _ hsucc _
    rw [Nat.add_zero] at hsucc
    rcases ho : oracle attempt with ⟨s, ra, body⟩ | _ | _ <;> rw [ho] at hsucc
    · simp only [successBody] at hsucc
      by_cases hs : successStatus s = true
      · rw [requestGo_success oracle attempt remaining backoff s ra body hs ho]
        simp
      · rw [if_neg hs] at hsucc
        exact absurd hsucc (by simp)
    · simp [successBody] at hsucc
    · simp [successBody] at hsucc
  | succ k ih =>
    intro attempt remaining backoff htr hsucc hk
    obtain ⟨r, rfl⟩ : ∃ r, remaining = r + 1 := ⟨remaining - 1, by omega⟩
    have ht0 : backoffTransient (oracle attempt) = true := by
      have h0 := htr 0 (Nat.succ_pos k)
      rwa [Nat.add_zero] at h0
    have htr2 : ∀ j, j < k → backoffTransient (oracle (attempt + 1 + j)) = true := by
      intro j hj
      have hx := htr (j + 1) (by omega)
      rwa [show attempt + (j + 1) = attempt + 1 + j by omega] at hx
    have hsucc2 : successBody (oracle (attempt + 1 + k)) = some b := by
      rwa [show attempt + 1 + k = attempt + (k + 1) by omega]
    have hrec := ih (attempt + 1) r (backoff * 2) htr2 hsucc2 (by omega)
    have hstep : (List.range (k + 1)).map (fun i => backoff * 2 ^ i)
        = backoff :: (List.range k).map (fun i => (backoff * 2) * 2 ^ i) := by
      rw [List.range_succ_eq_map, List.map_cons, List.map_map]
      refine congrArg₂ List.cons (by ring) (List.map_congr_left ?_)
      intro i _
      show backoff * 2 ^ (i + 1) = backoff * 2 * 2 ^ i
      ring
    rcases ho : oracle attempt with ⟨s, ra, body⟩ | _ | _
    · rw [ho] at ht0
      simp only [backoffTransient, Bool.or_eq_true, Bool.and_eq_true,
        decide_eq_true_eq] at ht0
      rcases ht0 with ⟨h429, hra⟩ | hs
      · subst h429
        subst hra
        rw [requestGo_429_retry oracle attempt r backoff none body ho, hstep]
        exact congrArg₂ List.cons rfl hrec
      · rw [requestGo_5xx_retry oracle attempt r backoff s ra body hs ho, hstep]
        exact congrArg₂ List.cons rfl hrec
    · rw [requestGo_timeout_retry oracle attempt r backoff ho, hstep]
      exact congrArg₂ List.cons rfl hrec
    · rw [requestGo_conn_retry oracle attempt r backoff ho, hstep]
      exact congrArg₂ List.cons rfl hrec

/-- The first sleep of a loop iteration whose attempt is a
backoff-sleeping transient (with retries remaining) is the incoming backoff
value. -/
theorem requestGo_first_sleep (oracle : Nat → Attempt) (attempt r : Nat)
    (backoff : ℚ) (hbt : backoffTransient (oracle attempt) = true) :
    (requestGo oracle attempt (r + 1) backoff).sleeps.head? = some backoff := by
  rcases ho : oracle attempt with ⟨s, ra, body⟩ | _ | _
  · rw [ho] at hbt
    simp only [backoffTransient, Bool.or_eq_true, Bool.and_eq_true,
      decide_eq_true_eq] at hbt
    rcases hbt with ⟨h429, hra⟩ | hs
    · subst h429
      subst hra
      rw [requestGo_429_retry oracle attempt r backoff none body ho]
      rfl
    · rw [requestGo_5xx_retry oracle attempt r backoff s ra body hs ho]
      rfl
  · rw [requestGo_timeout_retry oracle attempt r backoff ho]
    rfl
  · rw [requestGo_conn_retry oracle attempt r backoff ho]
    rfl

/-- C3 (amended): a sequence of k transient outcomes (429, 5xx, timeout or
connection error) followed by a success is survived and the success returned
whenever k ≤ max_retries — the loop runs `max_retries + 1` attempts, one more
than the claim's threshold — and when every attempt of the whole budget is
transient, `_request` raises a terminal error after exactly
`max_retries + 1` attempts, with no further attempt beyond the budget. -/
theorem retry_budget_amended (st : ClientState) (oracle : Nat → Attempt)
    (k b : Nat) :
    ((∀ j, j < k → transient (oracle j) = true) →
      successBody (oracle k) = some b → k ≤ st.maxRetries →
      (request st oracle).result = .ok b ∧
      (request st oracle).attempts = k + 1) ∧
    ((∀ j, j ≤ st.maxRetries → transient (oracle j) = true) →
      (∃ e, (request st oracle).result = .error e) ∧
      (request st oracle).attempts = st.maxRetries + 1) := by
  constructor
  · intro h1 h2 h3
    exact requestGo_ok_of_transients oracle b k 0 st.maxRetries
      st.initialBackoff (by simpa using h1) (by simpa using h2) h3
  · intro h1
    exact requestGo_error_of_all_transient oracle st.maxRetries 0
      st.initialBackoff (by simpa using h1)

/-- Witness for `retry_budget_amended`: one 500 followed by a success under
max_retries = 2 yields the success; an all-timeout oracle yields a terminal
error. -/
theorem retry_budget_amended_witness :
    (request ⟨2, 1⟩ (fun n => if n = 0 then Attempt.response 500 none 0
        else Attempt.response 200 none 7)).result = Except.ok 7 ∧
    (∃ e, (request ⟨2, 1⟩ (fun _ => Attempt.timeout)).result
      = Except.error e) := by
  constructor
  · exact ((retry_budget_amended ⟨2, 1⟩
      (fun n => if n = 0 then Attempt.response 500 none 0
        else Attempt.response 200 none 7) 1 7).1
      (fun j hj => by
        have h0 : j = 0 := Nat.lt_one_iff.mp hj
        subst h0
        rfl)
      rfl (by decide)).1
  · exact ((retry_budget_amended ⟨2, 1⟩ (fun _ => Attempt.timeout) 0 0).2
      (fun j hj => rfl)).1

/-- C3 counterexample: with max_retries = 1, the sequence of exactly one
transient failure (a 500) followed by a success has length ≥ max_retries,
yet `_request` returns the success rather than raising a terminal error —
the loop runs `max_retries + 1` attempts, so the claim's threshold is off by
one. -/
theorem retry_budget_counterexample :
    (∀ j, j < 1 → transient ((fun n => if n = 0 then Attempt.response 500 none 0
        else Attempt.response 200 none 7) j) = true) ∧
    successBody ((fun n => if n = 0 then Attempt.response 500 none 0
        else Attempt.response 200 none 7) 1) = some 7 ∧
    (ClientState.mk 1 1).maxRetries ≤ 1 ∧
    (request ⟨1, 1⟩ (fun n => if n = 0 then Attempt.response 500 none 0
        else Attempt.response 200 none 7)).result = Except.ok 7 ∧
    ∀ e, (request ⟨1, 1⟩ (fun n => if n = 0 then Attempt.response 500 none 0
        else Attempt.response 200 none 7)).result ≠ Except.error e := by
  refine ⟨?_, rfl, by decide, rfl, ?_⟩
  · intro j hj
    have h0 : j = 0 := Nat.lt_one_iff.mp hj
    subst h0
    rfl
  · intro e h
    have h2 : Except.ok (ε := ReqError) 7 = Except.error e := h
    exact Except.noConfusion h2

/-- C4 (amended): within one `_request` call the backoff starts at the
configured initial value and strictly doubles on every transient retry (the
sleep trace of k backoff-sleeping retries before a success is the geometric
sequence), but the backoff IS reset between different requests: `_request`
re-initialises its local backoff from `self.initial_backoff` and leaves the
client state unchanged, so the next request of the same client begins again
at the configured initial value, not at the doubled value. -/
theorem backoff_doubling_and_reset (st : ClientState)
    (oracle oracle2 : Nat → Attempt) (k b : Nat) :
    ((∀ j, j < k → backoffTransient (oracle j) = true) →
      successBody (oracle k) = some b → k ≤ st.maxRetries →
      (request st oracle).sleeps =
        (List.range k).map (fun i => st.initialBackoff * 2 ^ i)) ∧
    (requestStep st oracle).2 = st ∧
    (0 < st.maxRetries → backoffTransient (oracle2 0) = true →
      (request (requestStep st oracle).2 oracle2).sleeps.head?
        = some st.initialBackoff) := by
  refine ⟨?_, rfl, ?_⟩
  · intro h1 h2 h3
    exact requestGo_sleeps_doubling oracle b k 0 st.maxRetries
      st.initialBackoff (by simpa using h1) (by simpa using h2) h3
  · intro hmax hbt
    obtain ⟨r, hr⟩ : ∃ r, st.maxRetries = r + 1 := ⟨st.maxRetries - 1, by omega⟩
    show (request st oracle2).sleeps.head? = some st.initialBackoff
    rw [request, hr]
    exact requestGo_first_sleep oracle2 0 r st.initialBackoff hbt

/-- Witness for `backoff_doubling_and_reset`: one 503 then success under
initial backoff 1 sleeps `[1 * 2 ^ 0]`, and the next request of the same
client starts sleeping at 1 again. -/
theorem backoff_doubling_and_reset_witness :
    (request ⟨5, 1⟩ (fun n => if n = 0 then Attempt.response 503 none 0
        else Attempt.response 200 none 7)).sleeps
      = (List.range 1).map (fun i => (1 : ℚ) * 2 ^ i) ∧
    (request (requestStep ⟨5, 1⟩
        (fun n => if n = 0 then Attempt.response 503 none 0
          else Attempt.response 200 none 7)).2
      (fun n => if n = 0 then Attempt.response 503 none 0
        else Attempt.response 200 none 7)).sleeps.head? = some (1 : ℚ) := by
  constructor
  · exact (backoff_doubling_and_reset ⟨5, 1⟩
      (fun n => if n = 0 then Attempt.response 503 none 0
        else Attempt.response 200 none 7)
      (fun n => if n = 0 then Attempt.response 503 none 0
        else Attempt.response 200 none 7) 1 7).1
      (fun j hj => by
        have h0 : j = 0 := Nat.lt_one_iff.mp hj
        subst h0
        rfl)
      rfl (by decide)
  · exact (backoff_doubling_and_reset ⟨5, 1⟩
      (fun n => if n = 0 then Attempt.response 503 none 0
        else Attempt.response 200 none 7)
      (fun n => if n = 0 then Attempt.response 503 none 0
        else Attempt.response 200 none 7) 1 7).2.2 (by decide) rfl

/-- C4 counterexample: a request that performed one transient retry (sleep
trace `[1]`, backoff doubled to 2 internally) leaves the client state
unchanged, and the next request issued by the same client sleeps 1 — the
configured initial backoff — on its first transient attempt, not the
doubled value 2 the claim predicts. -/
theorem backoff_reset_counterexample :
    (request ⟨5, 1⟩ (fun n => if n = 0 then Attempt.response 503 none 0
        else Attempt.response 200 none 7)).sleeps = [1] ∧
    (requestStep ⟨5, 1⟩ (fun n => if n = 0 then Attempt.response 503 none 0
        else Attempt.response 200 none 7)).2 = ⟨5, 1⟩ ∧
    (request (requestStep ⟨5, 1⟩
        (fun n => if n = 0 then Attempt.response 503 none 0
          else Attempt.response 200 none 7)).2
      (fun n => if n = 0 then Attempt.response 503 none 0
        else Attempt.response 200 none 7)).sleeps.head? = some (1 : ℚ) ∧
    ((1 : ℚ) ≠ 2) := by
  decide

/-- C6: for a 429 response carrying a `Retry-After: N` header, when retry
attempts remain (`remaining = r + 1`, i.e. `attempt < max_retries`) the
client sleeps exactly N seconds before the next attempt, not the current
computed backoff; when the header is absent it sleeps the current computed
backoff instead. -/
theorem retry_after_header_honored (oracle : Nat → Attempt) (attempt r : Nat)
    (backoff : ℚ) (n body : Nat) :
    (oracle attempt = .response 429 (some n) body →
      (requestGo oracle attempt (r + 1) backoff).sleeps.head? = some (n : ℚ)) ∧
    (oracle attempt = .response 429 none body →
      (requestGo oracle attempt (r + 1) backoff).sleeps.head? = some backoff) := by
  constructor <;> intro h <;>
    simp [requestGo, h, successStatus, retryWait]

/-- Witness for `retry_after_header_honored` at a concrete 429 oracle with
`Retry-After: 7` (resp. no header) and one retry remaining. -/
theorem retry_after_header_honored_witness :
    (requestGo (fun _ => .response 429 (some 7) 0) 0 (0 + 1) 1).sleeps.head?
        = some ((7 : Nat) : ℚ) ∧
    (requestGo (fun _ => .response 429 none 0) 0 (0 + 1) 1).sleeps.head?
        = some (1 : ℚ) :=
  ⟨(retry_after_header_honored (fun _ => .response 429 (some 7) 0) 0 0 1 7 0).1 rfl,
   (retry_after_header_honored (fun _ => .response 429 none 0) 0 0 1 7 0).2 rfl⟩

/-- C2: with the `BindClient` of bind_client.py, every invocation of
`sync_invoices_from_bind` returns a report with `success = False`,
`inserted = 0`, `updated = 0` and a non-empty error list, because the call
at business_logic.py:769 passes the keyword arguments `limit` and
`order_by`, which `BindClient.get_invoices` does not accept; the resulting
`TypeError` is caught by the catch-all handler at business_logic.py:946. -/
theorem sync_invoices_get_invoices_type_error (env : SyncEnv) :
    (syncInvoicesFromBind env).success = false ∧
    (syncInvoicesFromBind env).inserted = 0 ∧
    (syncInvoicesFromBind env).updated = 0 ∧
    (syncInvoicesFromBind env).errors =
      ["Error: get_invoices() got an unexpected keyword argument limit"] :=
  ⟨rfl, rfl, rfl, rfl⟩

/-- C10: every sync run returns a report (the run is a total function of its
environment), and a failure of the fetch phase yields a report whose
inserted, updated and unchanged counts are all zero and whose error list is
exactly the single error entry of the outer exception handler. -/
theorem fetch_failure_zero_report (env : SyncEnv) (e : PyErr) :
    (∃ r : SyncResult, syncInvoicesFromBind env = r) ∧
    syncInvoicesCore env (.error e) =
      { success := false, timestamp := env.nowIso, totalInBind := 0,
        inserted := 0, updated := 0, unchanged := 0,
        errors := [pyErrMsg e], message := none } ∧
    (syncInvoicesCore env (.error e)).errors.length = 1 :=
  ⟨⟨syncInvoicesFromBind env, rfl⟩, rfl, rfl⟩

/-- C8: an invoice expanding to N per-product rows gives each expanded row
the synthetic key equal to the bare invoice identifier when N = 1 and
`"<id>-<n>"` (identifier plus product index) when N > 1, so a one-product
invoice keeps exactly the key it would have had without expansion. -/
theorem expansion_key_stability (fetch : Rec → Except String (List Rec))
    (inv : Rec) :
    ((effectiveProducts fetch inv).length = 1 →
      invoiceRowKeys fetch inv = [(invoiceUuid inv).pyStr]) ∧
    (1 < (effectiveProducts fetch inv).length →
      invoiceRowKeys fetch inv =
        (List.range (effectiveProducts fetch inv).length).map
          (fun i => (invoiceUuid inv).pyStr ++ "-" ++ toString i)) := by
  constructor
  · intro h
    simp only [invoiceRowKeys, h]
    rfl
  · intro h
    simp only [invoiceRowKeys]
    refine List.map_congr_left ?_
    intro i _
    simp [rowKey, h]

/-- Witness for `expansion_key_stability`: a two-product invoice with UUID
`"u"` expands to the keys `["u-0", "u-1"]`. -/
theorem expansion_key_stability_witness :
    invoiceRowKeys
      (fun _ => Except.ok [[("Qty", Value.int 1)], [("Qty", Value.int 2)]])
      [("UUID", Value.str "u")] = ["u-0", "u-1"] := by
  have h := (expansion_key_stability
    (fun _ => Except.ok [[("Qty", Value.int 1)], [("Qty", Value.int 2)]])
    [("UUID", Value.str "u")]).2 (by decide)
  rw [h]
  rfl

/-- C9 (amended): in the catalog sync a numeric source value is emitted
unchanged (integers stay integers, decimals stay decimals), but in the
invoice sync every non-null value — quantities included — is coerced to its
string rendering by the unconditional `str(value)` at business_logic.py:892,
without consulting the target column type. -/
theorem numeric_preservation_amended :
    (∀ n : Int, catalogCellValue (.int n) = .int n) ∧
    (∀ q : ℚ, catalogCellValue (.float q) = .float q) ∧
    (∀ v : Value, v ≠ .null → invoiceCellValue v = .str v.pyStr) := by
  refine ⟨fun n => rfl, fun q => rfl, fun v hv => ?_⟩
  simp [invoiceCellValue, hv]

/-- Witness for `numeric_preservation_amended`: the integer 5 survives the
catalog conversion and is stringified by the invoice conversion. -/
theorem numeric_preservation_amended_witness :
    catalogCellValue (.int 5) = .int 5 ∧
    invoiceCellValue (.int 5) = .str "5" := by
  refine ⟨numeric_preservation_amended.1 5, ?_⟩
  have h := numeric_preservation_amended.2.2 (.int 5) (by decide)
  rw [h]
  rfl

/-- C9 counterexample: a source product whose `Qty` is the integer 5,
mapped through the invoice sync's field mapping against a sheet having the
`Cantidad` column, is emitted as the string cell value `"5"`, not as a
numeric value — refuting type preservation at this concrete input (and the
coercion does not depend on the target column accepting only text: the code
never reads column types). -/
theorem quantity_stringified_counterexample :
    mkInvoiceCells [("Cantidad", 1)]
      (invoiceFieldMapping (fun s => s) "now" [("UUID", Value.str "u")]
        [("Qty", Value.int 5)] "u")
      = [{ columnId := 1, value := Value.str "5" }] ∧
    Value.isNumeric (Value.str "5") = false ∧
    Value.isNumeric (Value.int 5) = true ∧
    Value.str "5" ≠ Value.int 5 := by
  refine ⟨by decide, rfl, rfl, by decide⟩

/-- C1 (amended): reconciliation UPSERT decisions.  In both syncs a record
whose computed business key is already present in the key index always
yields an update addressed to exactly the target row id stored in the index
for that key, never an insert, and a record whose computed key is empty is
skipped, producing neither an insert nor an update — but the warning differs
by path: the invoice sync logs exactly the `"Factura sin UUID ignorada"`
warning, while the catalog sync skips silently, logging no warning at all.
In detail: an invoice with a falsy UUID queues no row and produces exactly
the logged warning; an invoice with a truthy UUID produces one operation per
expanded per-product row, an update at the indexed row id whenever that
row's synthetic key is in the index; a catalog record with an empty
primary-key string produces no operation and an empty warning list; a
catalog key present in the index yields the update at the indexed row id. -/
theorem reconcile_key_decisions (ctx : ReconCtx) (inv : Rec)
    (cfg : CatalogConfig) (colMap : List (String × Nat))
    (existing : List (Value × Nat)) (ts : String) (record : Rec) :
    ((invoiceUuid inv).truthy = false →
      processInvoice ctx inv =
        ([], ["Factura sin UUID ignorada: " ++ (inv.getD "Number" .null).pyStr])) ∧
    ((invoiceUuid inv).truthy = true →
      (processInvoice ctx inv).1.length
          = (effectiveProducts ctx.fetchProducts inv).length ∧
      ∀ i rid, i < (effectiveProducts ctx.fetchProducts inv).length →
        lookup ctx.existingMap
          (rowKey (invoiceUuid inv).pyStr
            (effectiveProducts ctx.fetchProducts inv).length i) = some rid →
        ∃ cs, (processInvoice ctx inv).1.get? i = some (.update rid cs)) ∧
    (catalogPkValue cfg record = "" →
      catalogProcessRecordLogged cfg colMap existing ts record = (none, [])) ∧
    (∀ rid, catalogPkValue cfg record ≠ "" →
      lookupV existing (.str (catalogPkValue cfg record)) = some rid →
      catalogProcessRecord cfg colMap existing ts record =
        some (.update rid (catalogCells cfg colMap ts record))) := by
  refine ⟨?_, ?_, ?_, ?_⟩
  · intro h
    simp [processInvoice, h]
  · intro htru
    constructor
    · simp [processInvoice, htru]
    · intro i rid hi hlook
      have hp : (effectiveProducts ctx.fetchProducts inv).get? i
          = some ((effectiveProducts ctx.fetchProducts inv).get ⟨i, hi⟩) :=
        List.get?_eq_get hi
      refine ⟨mkInvoiceCells ctx.columnMap (invoiceFieldMapping ctx.formatFecha
        ctx.nowStr inv ((effectiveProducts ctx.fetchProducts inv).get ⟨i, hi⟩)
        (rowKey (invoiceUuid inv).pyStr
          (effectiveProducts ctx.fetchProducts inv).length i)), ?_⟩
      simp only [processInvoice, htru, Bool.not_true, Bool.false_eq_true,
        if_false]
      rw [List.get?_map, List.get?_enum, hp]
      simp only [Option.map_some']
      simp only [invoiceOpForProduct, hlook]
  · intro h
    simp only [catalogProcessRecordLogged, catalogProcessRecord, h]
    rfl
  · intro rid hne hlook
    have hie : (catalogPkValue cfg record).isEmpty = false := by
      rcases he : (catalogPkValue cfg record).isEmpty with _ | _
      · rfl
      · exact absurd ((String.isEmpty_iff _).mp he) hne
    simp [catalogProcessRecord, hie, hlook]

/-- Witness for `reconcile_key_decisions`: a two-product invoice with UUID
`"u"` against a key index containing `"u-0" ↦ 7` queues the update addressed
to row 7 at position 0. -/
theorem reconcile_key_decisions_witness :
    ∃ cs, (processInvoice
      { fetchProducts := fun _ =>
          Except.ok [[("Qty", Value.int 1)], [("Qty", Value.int 2)]]
        formatFecha := fun s => s
        nowStr := "now"
        existingMap := [("u-0", 7)]
        columnMap := [("Nueva", 1)] }
      [("UUID", Value.str "u")]).1.get? 0 = some (Op.update 7 cs) :=
  ((reconcile_key_decisions
      { fetchProducts := fun _ =>
          Except.ok [[("Qty", Value.int 1)], [("Qty", Value.int 2)]]
        formatFecha := fun s => s
        nowStr := "now"
        existingMap := [("u-0", 7)]
        columnMap := [("Nueva", 1)] }
      [("UUID", Value.str "u")]
      ⟨[], ""⟩ [] [] "" []).2.1 (by decide)).2 0 7 (by decide) (by decide)

/-- C1 counterexample: in `BindCatalogSync.sync_catalog`, a record whose
computed business key is empty (its `ID` field is absent, so the key string
is `""`) is indeed skipped, producing neither an insert nor an update — but
no warning is logged: the skip at sync_bind_catalogs.py:490-491 is a bare
`continue` and the record loop contains no logging statement, so the warning
list is empty, refuting on this cited code path the claim that every
empty-key record is skipped with a logged warning. -/
theorem catalog_silent_skip_counterexample :
    catalogPkValue ⟨[("ID", "ID")], "ID"⟩ [("Name", Value.int 5)] = "" ∧
    catalogProcessRecordLogged ⟨[("ID", "ID")], "ID"⟩ [("ID", 1)] [] "ts"
      [("Name", Value.int 5)] = (none, []) := by
  decide

/-- Chunking the empty list yields no chunks, whatever the fuel. -/
theorem chunksGo_nil {α : Type} (n fuel : Nat) :
    chunksGo (α := α) n fuel [] = [] := by
  cases fuel <;> rfl

/-- Chunking a non-empty list takes the first `n` elements as the first
chunk and recurses on the rest. -/
theorem chunksGo_cons {α : Type} (n fuel : Nat) (l : List α) (hl : l ≠ []) :
    chunksGo n (fuel + 1) l = l.take n :: chunksGo n fuel (l.drop n) := by
  cases l with
  | nil => exact absurd rfl hl
  | cons a t => rfl

/-- C7 (amended): in `sync_invoices_from_bind`, applying 150 inserts with
batch size 100 performs exactly two API calls with chunk sizes 100 and 50;
when the second call raises, the first call's 100 successes are still
reflected in the inserted count, exactly one error string is appended, and
iteration continues.  In `BindCatalogSync.sync_catalog`, however, a failing
chunk aborts the run: with 250 rows (three chunks) and the second call
raising, only 2 of the 3 calls are issued and the run returns the failure
dict, which carries no inserted/updated counts at all. -/
theorem batch_tolerance_amended (rows rows250 : List (List Cell))
    (e e2 : String)
    (outcome addOut updOut : Nat → Except String Unit) :
    (rows.length = 150 → outcome 0 = .ok () → outcome 1 = .error e →
      (chunks 100 rows).map List.length = [100, 50] ∧
      applyBatchesTolerant outcome "Error insert: " (chunks 100 rows) =
        { count := 100, errors := ["Error insert: " ++ e], calls := 2 }) ∧
    (rows250.length = 250 → addOut 0 = .ok () → addOut 1 = .error e2 →
      (chunks 100 rows250).length = 3 ∧
      catalogApplyPhase addOut updOut rows250 [] =
        ({ success := false, inserted := none, updated := none,
           error := some e2 }, 2)) := by
  constructor
  · intro h150 h0 h1
    have hne : rows ≠ [] := by
      intro hnil
      rw [hnil] at h150
      simp at h150
    have hd100 : (rows.drop 100).length = 50 := by
      rw [List.length_drop, h150]
    have hne2 : rows.drop 100 ≠ [] := by
      intro hnil
      rw [hnil] at hd100
      simp at hd100
    have h3 : (rows.drop 100).drop 100 = [] :=
      List.eq_nil_of_length_eq_zero (by rw [List.length_drop, hd100])
    have h4 : (rows.drop 100).take 100 = rows.drop 100 :=
      List.take_of_length_le (by omega)
    have hch : chunks 100 rows = [rows.take 100, rows.drop 100] := by
      rw [chunks, h150]
      rw [show (150 : Nat) = 149 + 1 from rfl, chunksGo_cons 100 149 rows hne]
      rw [show (149 : Nat) = 148 + 1 from rfl,
        chunksGo_cons 100 148 (rows.drop 100) hne2, h3, h4, chunksGo_nil]
    have htl : (rows.take 100).length = 100 := by
      rw [List.length_take, h150]
      decide
    constructor
    · rw [hch]
      simp [htl, hd100]
    · rw [hch]
      simp [applyBatchesTolerant, List.enum, List.enumFrom, h0, h1, htl, hd100]
  · intro h250 h0 h1
    have hne : rows250 ≠ [] := by
      intro hnil
      rw [hnil] at h250
      simp at h250
    have hd100 : (rows250.drop 100).length = 150 := by
      rw [List.length_drop, h250]
    have hne2 : rows250.drop 100 ≠ [] := by
      intro hnil
      rw [hnil] at hd100
      simp at hd100
    have hd200 : ((rows250.drop 100).drop 100).length = 50 := by
      rw [List.length_drop, hd100]
    have hne3 : (rows250.drop 100).drop 100 ≠ [] := by
      intro hnil
      rw [hnil] at hd200
      simp at hd200
    have hd300 : (((rows250.drop 100).drop 100).drop 100) = [] :=
      List.eq_nil_of_length_eq_zero (by rw [List.length_drop, hd200])
    have hch : chunks 100 rows250 =
        [rows250.take 100, (rows250.drop 100).take 100,
         ((rows250.drop 100).drop 100).take 100] := by
      rw [chunks, h250]
      rw [show (250 : Nat) = 249 + 1 from rfl, chunksGo_cons 100 249 rows250 hne]
      rw [show (249 : Nat) = 248 + 1 from rfl,
        chunksGo_cons 100 248 (rows250.drop 100) hne2]
      rw [show (248 : Nat) = 247 + 1 from rfl,
        chunksGo_cons 100 247 ((rows250.drop 100).drop 100) hne3, hd300,
        chunksGo_nil]
    constructor
    · rw [hch]
      rfl
    · rw [catalogApplyPhase, hch]
      simp [catalogBatchGo, h0, h1]

set_option maxRecDepth 4000 in
/-- Witness for `batch_tolerance_amended` at concrete 150- and 250-row
inputs with the second batch call failing. -/
theorem batch_tolerance_amended_witness :
    applyBatchesTolerant
      (fun n => if n = 0 then .ok () else .error "boom") "Error insert: "
      (chunks 100 (List.replicate 150 ([] : List Cell))) =
      { count := 100, errors := ["Error insert: boom"], calls := 2 } ∧
    catalogApplyPhase (fun n => if n = 0 then .ok () else .error "boom")
      (fun _ => .ok ()) (List.replicate 250 ([] : List Cell)) [] =
      ({ success := false, inserted := none, updated := none,
         error := some "boom" }, 2) :=
  ⟨((batch_tolerance_amended (List.replicate 150 []) (List.replicate 250 [])
      "boom" "boom" (fun n => if n = 0 then .ok () else .error "boom")
      (fun n => if n = 0 then .ok () else .error "boom")
      (fun _ => .ok ())).1 (by rw [List.length_replicate]) rfl rfl).2,
   ((batch_tolerance_amended (List.replicate 150 []) (List.replicate 250 [])
      "boom" "boom" (fun n => if n = 0 then .ok () else .error "boom")
      (fun n => if n = 0 then .ok () else .error "boom")
      (fun _ => .ok ())).2 (by rw [List.length_replicate]) rfl rfl).2⟩

set_option maxRecDepth 8000 in
/-- C7 counterexample: in `BindCatalogSync.sync_catalog`, 250 queued inserts
form three chunks; with the second API call raising, the run performs only
2 of the 3 calls — iteration does not continue — and returns the failure
dict, in which the first call's 100 successes are not reflected (the dict
has no inserted count at all), refuting the claim for this cited code
path. -/
theorem batch_abort_counterexample :
    (chunks 100 (List.replicate 250 ([] : List Cell))).length = 3 ∧
    catalogApplyPhase (fun n => if n = 1 then .error "boom" else .ok ())
      (fun _ => .ok ()) (List.replicate 250 ([] : List Cell)) [] =
      ({ success := false, inserted := none, updated := none,
         error := some "boom" }, 2) ∧
    (2 : Nat) ≠ 3 := by
  decide

/-- Ceiling division identity: when P does not divide N, `⌈N/P⌉` (written
`(N + P - 1) / P`) equals `N / P + 1`. -/
theorem div_succ_eq_ceil (N P : Nat) (hP : 0 < P) (hr0 : N % P ≠ 0) :
    N / P + 1 = (N + P - 1) / P := by
  have h1 : N % P < P := Nat.mod_lt _ hP
  have h2 : 1 ≤ N % P := Nat.one_le_iff_ne_zero.mpr hr0
  have hmod : P * (N / P) + N % P = N := Nat.div_add_mod N P
  have key : N + P - 1 = (N % P - 1 + P) + P * (N / P) := by omega
  rw [key, Nat.add_mul_div_left _ _ hP, Nat.add_div_right _ hP,
    Nat.div_eq_of_lt (lt_of_le_of_lt (Nat.sub_le _ _) h1)]
  omega

/-- Behavior of the pagination loop with no `max_records` bound: starting at
any offset it returns the remaining records and issues exactly
`(remaining / P) + 1` page requests — one request per full page plus the one
terminal request that observes a short or empty page. -/
theorem paginatedGo_none {α : Type} (src : List α) (P : Nat) (hP : 0 < P) :
    ∀ fuel skip acc reqs, (src.length - skip) / P + 1 ≤ fuel →
      paginatedGo src P none fuel skip acc reqs =
        some (acc ++ src.drop skip, reqs + ((src.length - skip) / P + 1)) := by
  intro fuel
  induction fuel with
  | zero => intro skip acc reqs h; exact absurd h (Nat.not_succ_le_zero _)
  | succ f ih =>
    intro skip acc reqs h
    by_cases hskip : src.length ≤ skip
    · have hnil : src.drop skip = [] := List.drop_eq_nil_of_le hskip
      have hz : src.length - skip = 0 := by omega
      simp [paginatedGo, pageSlice, hnil, hz]
    · push_neg at hskip
      rcases Nat.lt_or_ge (src.length - skip) P with hshort | hfull
      · have hdiv0 : (src.length - skip) / P = 0 := Nat.div_eq_of_lt hshort
        have htake : List.take P (List.drop skip src) = List.drop skip src :=
          List.take_of_length_le (by rw [List.length_drop]; omega)
        simp [paginatedGo, pageSlice, hdiv0, htake, maxReached, hshort,
          Nat.not_le.mpr hskip, Nat.pos_iff_ne_zero.mp hP]
      · have hdiv : (src.length - skip) / P = (src.length - skip - P) / P + 1 :=
          Nat.div_eq_sub_div hP hfull
        have hsub : src.length - (skip + P) = src.length - skip - P := by omega
        have hfuel : (src.length - (skip + P)) / P + 1 ≤ f := by
          rw [hsub]; omega
        have hnlt : ¬ src.length - skip < P := Nat.not_lt.mpr hfull
        simp only [paginatedGo, pageSlice]
        rw [if_neg (show ¬ (List.take P (List.drop skip src)).isEmpty = true by
          rw [List.isEmpty_iff, ← List.length_eq_zero, List.length_take,
            List.length_drop]; omega)]
        rw [if_neg (by simp [maxReached])]
        rw [if_neg (show ¬ (List.take P (List.drop skip src)).length < P by
          rw [List.length_take, List.length_drop]; omega)]
        rw [ih (skip + P) (acc ++ List.take P (List.drop skip src)) (reqs + 1) hfuel,
          List.append_assoc, List.drop_take_append_drop, hsub, hdiv]
        have harith : reqs + 1 + ((src.length - skip - P) / P + 1)
            = reqs + ((src.length - skip - P) / P + 1 + 1) := by omega
        rw [harith]

/-- C5 (amended): with a positive page size P, paginating over a source of N
records issues exactly `N / P + 1` page requests and returns all N records:
when the last page is short (P does not divide N) this is exactly `⌈N/P⌉`
requests, as the claim states; but when P divides N (including N = 0) the
loop issues one request more than `⌈N/P⌉` — the trailing request fetches the
empty page whose zero records terminate the loop. -/
theorem pagination_request_count {α : Type} (src : List α) (P : Nat)
    (hP : 0 < P) :
    paginatedGet src P none = some (src, src.length / P + 1) ∧
    (src.length % P ≠ 0 →
      paginatedGet src P none = some (src, (src.length + P - 1) / P)) := by
  have hmain : paginatedGet src P none = some (src, src.length / P + 1) := by
    have h := paginatedGo_none src P hP (src.length + 1) 0 [] 0
      (by rw [Nat.sub_zero]; have := Nat.div_le_self src.length P; omega)
    simpa [paginatedGet] using h
  refine ⟨hmain, fun hr => ?_⟩
  rw [hmain, div_succ_eq_ceil src.length P hP hr]

/-- Witness for `pagination_request_count`: three records with page size two
are fetched in exactly two requests, which is `⌈3/2⌉`. -/
theorem pagination_request_count_witness :
    paginatedGet [0, 1, 2] 2 none = some ([0, 1, 2], 2) ∧
    (2 : Nat) = (3 + 2 - 1) / 2 := by
  refine ⟨(pagination_request_count [0, 1, 2] 2 (by decide)).2 (by decide), by decide⟩

/-- C5 counterexample: a source holding exactly N = 2 records paginated with
page size P = 2 (a full final page) issues 2 page requests, while the claim
as stated predicts exactly `⌈N/P⌉ = 1`; the second, trailing request returns
zero records and terminates the loop. -/
theorem pagination_request_count_counterexample :
    paginatedGet [0, 1] 2 none = some ([0, 1], 2) ∧
    (2 + 2 - 1) / 2 = 1 ∧ (2 : Nat) ≠ 1 := by
  decide

end BindSync
